import Mathlib

/-!
Shallow embedding of the workout-api repository (Django REST + mongoengine).

Sources embedded here:
  * src/workouts/models.py      (documents and their methods)
  * src/workouts/serializers.py (validated-data handling, create and update)
  * src/workouts/views.py       (viewset handlers and their status codes)

Conventions of the embedding:
  * Document references (ReferenceField) are modelled as ids; document
    equality in the source (for example workout.creator != user_profile)
    compares primary keys, so the model compares ids.
  * Timestamps are integers counting seconds; datetime.utcnow is passed in
    explicitly as a `now` argument.  Python floor division `//` on these
    integers is Int.fdiv.
  * Nullable fields are Option; Python truthiness of a nullable integer
    (None and 0 are falsy) is the helper optTruthy.
  * Each HTTP handler is a pure function from the store, the requesting
    user and its inputs to a result (and the updated store where it
    writes).  DRF renders the response; only status and payload matter.
-/

namespace WorkoutApi

abbrev UserId := Nat
abbrev ProfileId := Nat
abbrev ExerciseId := Nat
abbrev WorkoutId := Nat
abbrev SessionId := Nat
abbrev LogId := Nat

/-- Python truthiness of an optional integer: None and 0 are falsy. -/
def optTruthy : Option Nat → Bool
  | none => false
  | some n => n != 0

/-- Exercise.CATEGORY_CHOICES (models.py). -/
inductive Category where
  | strength | cardio | flexibility | balance | plyometric | olympic | powerlifting
deriving DecidableEq, Repr

/-- DIFFICULTY_CHOICES, shared by Exercise and Workout (models.py). -/
inductive Difficulty where
  | beginner | intermediate | advanced | expert
deriving DecidableEq, Repr

/-- WorkoutSession.STATUS_CHOICES (models.py). -/
inductive SessionStatus where
  | planned | in_progress | completed | skipped | cancelled
deriving DecidableEq, Repr

/-- UserProfile document (models.py).  Fitness attributes are not
load-bearing for any claim and are omitted from the record. -/
structure UserProfile where
  id : ProfileId
  user_id : UserId
  username : String
  email : String
deriving DecidableEq, Repr

/-- Exercise document (models.py). -/
structure Exercise where
  id : ExerciseId
  name : String
  description : String
  category : Category
  muscle_groups : List String
  equipment_required : List String
  difficulty : Difficulty
  video_url : Option String
  image_url : Option String
  instructions : List String
  created_at : Int
deriving DecidableEq, Repr

/-- WorkoutExercise embedded document (models.py): one entry of a workout.
The exercise reference is stored by id. -/
structure WorkoutExercise where
  exercise : ExerciseId
  order : Nat
  sets : Nat
  reps : Option Nat
  duration : Option Nat
  rest_period : Int
  notes : Option String
deriving DecidableEq, Repr

/-- Workout document (models.py). -/
structure Workout where
  id : WorkoutId
  title : String
  description : String
  creator : ProfileId
  is_public : Bool
  exercises : List WorkoutExercise
  estimated_duration : Option Int
  difficulty : Difficulty
  tags : List String
deriving DecidableEq, Repr

/-- WorkoutSession document (models.py). -/
structure WorkoutSession where
  id : SessionId
  user : ProfileId
  workout : WorkoutId
  status : SessionStatus
  scheduled_date : Option Int
  started_at : Option Int
  completed_at : Option Int
  notes : Option String
deriving DecidableEq, Repr

/-- ExerciseLog document (models.py). -/
structure ExerciseLog where
  id : LogId
  session : SessionId
  exercise : ExerciseId
  set_number : Int
  reps : Option Int
  weight : Option Int
  duration : Option Int
  distance : Option Int
  notes : Option String
  perceived_exertion : Option Int
  created_at : Int
deriving DecidableEq, Repr

/-- Workout.get_total_exercises (models.py line 188). -/
def Workout.get_total_exercises (w : Workout) : Nat :=
  w.exercises.length

/-- Seconds contributed by one entry of the loop body of
Workout.calculate_estimated_duration (models.py lines 198-211):
per-set time is the entry duration when truthy, else 30 seconds;
rest contributes rest_period * (sets - 1). -/
def entrySeconds (e : WorkoutExercise) : Int :=
  let exercise_time : Int :=
    if optTruthy e.duration then (e.duration.getD 0 : Int) * e.sets else 30 * e.sets
  exercise_time + e.rest_period * ((e.sets : Int) - 1)

/-- Workout.calculate_estimated_duration (models.py lines 192-216):
0 when there are no exercises, else the per-entry sum plus a fixed 300
second warm-up/cool-down, floor-divided by 60. -/
def Workout.calculate_estimated_duration (w : Workout) : Int :=
  if w.exercises = [] then 0
  else (w.exercises.foldl (fun acc e => acc + entrySeconds e) 0 + 300).fdiv 60

/-- WorkoutSession.start_session (models.py lines 268-272):
unconditionally sets status to in_progress and started_at to now. -/
def WorkoutSession.start_session (s : WorkoutSession) (now : Int) : WorkoutSession :=
  { s with status := .in_progress, started_at := some now }

/-- WorkoutSession.complete_session (models.py lines 274-278):
unconditionally sets status to completed and completed_at to now. -/
def WorkoutSession.complete_session (s : WorkoutSession) (now : Int) : WorkoutSession :=
  { s with status := .completed, completed_at := some now }

/-- WorkoutSession.get_duration (models.py lines 280-285): minutes between
started_at and completed_at when both are set, else None. -/
def WorkoutSession.get_duration (s : WorkoutSession) : Option Int :=
  match s.started_at, s.completed_at with
  | some t0, some t1 => some ((t1 - t0).fdiv 60)
  | _, _ => none

/-- The persistent store: one collection per document class. -/
structure Store where
  profiles : List UserProfile
  exercises : List Exercise
  workouts : List Workout
  sessions : List WorkoutSession
  logs : List ExerciseLog
deriving DecidableEq, Repr

/-- UserProfile.objects.get(user_id=uid). -/
def findProfile (st : Store) (uid : UserId) : Option UserProfile :=
  st.profiles.find? (fun p => p.user_id == uid)

/-- Exercise.objects.get(id=pk). -/
def findExercise (st : Store) (pk : ExerciseId) : Option Exercise :=
  st.exercises.find? (fun e => e.id == pk)

/-- Workout.objects.get(id=pk). -/
def findWorkout (st : Store) (pk : WorkoutId) : Option Workout :=
  st.workouts.find? (fun w => w.id == pk)

/-- WorkoutSession.objects.get(id=pk). -/
def findSession (st : Store) (pk : SessionId) : Option WorkoutSession :=
  st.sessions.find? (fun s => s.id == pk)

/-- ExerciseLog.objects.get(id=pk). -/
def findLog (st : Store) (pk : LogId) : Option ExerciseLog :=
  st.logs.find? (fun l => l.id == pk)

/-- django's request.user as the handlers consume it: AnonymousUser has
is_authenticated = false; is_staff marks an administrator. -/
structure RequestUser where
  is_authenticated : Bool
  id : UserId
  is_staff : Bool
  username : String
  email : String
deriving DecidableEq, Repr

/-- Outcome of a handler, by HTTP status, with the serialized payload of
the success cases.  serverError models an exception none of the handlers's
except-clauses catches (rendered 500). -/
inductive ApiResult (α : Type) where
  | ok (a : α)
  | created (a : α)
  | noContent
  | badRequest
  | unauthorized
  | forbidden
  | notFound
  | serverError
deriving DecidableEq, Repr

/-- One entry of WorkoutSerializer's representation
(WorkoutExerciseSerializer.to_representation, serializers.py lines 89-99):
the exercise reference is resolved to the catalog document. -/
structure EntryRepr where
  exercise : Option Exercise
  order : Nat
  sets : Nat
  reps : Option Nat
  duration : Option Nat
  rest_period : Int
  notes : Option String
deriving DecidableEq, Repr

/-- WorkoutSerializer.to_representation (serializers.py lines 182-197):
the full workout detail, entries resolved against the store. -/
structure WorkoutDetail where
  id : WorkoutId
  title : String
  description : String
  creator : Option UserProfile
  is_public : Bool
  exercises : List EntryRepr
  estimated_duration : Option Int
  difficulty : Difficulty
  tags : List String
  total_exercises : Nat
deriving DecidableEq, Repr

/-- Resolve one embedded entry for the representation. -/
def entryRepr (st : Store) (e : WorkoutExercise) : EntryRepr :=
  { exercise := findExercise st e.exercise
    order := e.order
    sets := e.sets
    reps := e.reps
    duration := e.duration
    rest_period := e.rest_period
    notes := e.notes }

/-- Serialize a workout to its full detail (serializers.py lines 182-197). -/
def workoutDetail (st : Store) (w : Workout) : WorkoutDetail :=
  { id := w.id
    title := w.title
    description := w.description
    creator := st.profiles.find? (fun p => p.id == w.creator)
    is_public := w.is_public
    exercises := w.exercises.map (entryRepr st)
    estimated_duration := w.estimated_duration
    difficulty := w.difficulty
    tags := w.tags
    total_exercises := w.get_total_exercises }

/-- WorkoutViewSet.retrieve (views.py lines 234-265).  A private workout
demands an authenticated caller; the caller's profile is looked up with
UserProfile.objects.get, whose DoesNotExist is caught by the handler's
except-clause and rendered 404 ('User profile not found'). -/
def WorkoutViewSet.retrieve (st : Store) (u : RequestUser) (pk : WorkoutId) :
    ApiResult WorkoutDetail :=
  match findWorkout st pk with
  | none => .notFound
  | some w =>
    if w.is_public = false then
      if u.is_authenticated = false then .unauthorized
      else
        match findProfile st u.id with
        | none => .notFound
        | some p =>
          if w.creator != p.id then .forbidden
          else .ok (workoutDetail st w)
    else .ok (workoutDetail st w)

/-- UserProfile.objects.get_or_create(user_id=..., defaults=...) as used by
workout create, session create and clone: reuse the existing profile, or
persist a fresh one filled from the request user. -/
def get_or_create_profile (st : Store) (u : RequestUser) (freshP : ProfileId) :
    UserProfile × Store :=
  match findProfile st u.id with
  | some p => (p, st)
  | none =>
    let p : UserProfile :=
      { id := freshP, user_id := u.id, username := u.username, email := u.email }
    (p, { st with profiles := st.profiles ++ [p] })

/-- The clone construction and save (views.py lines 410-434): title gets
the ' (Copy)' suffix, the caller's profile becomes the creator, the clone
is private, the remaining scalar fields and tags are copied, and every
embedded entry is appended unchanged (same exercise id). -/
def cloneAndSave (st : Store) (u : RequestUser) (w : Workout)
    (freshP : ProfileId) (freshW : WorkoutId) : ApiResult Workout × Store :=
  let pst := get_or_create_profile st u freshP
  let w2 : Workout :=
    { id := freshW
      title := w.title ++ " (Copy)"
      description := w.description
      creator := pst.1.id
      is_public := false
      exercises := w.exercises
      estimated_duration := w.estimated_duration
      difficulty := w.difficulty
      tags := w.tags }
  (.created w2, { pst.2 with workouts := pst.2.workouts ++ [w2] })

/-- WorkoutViewSet.clone (views.py lines 389-449).  Requires
authentication; a private source demands the caller's profile
(UserProfile.objects.get - DoesNotExist rendered 404) to be the creator;
then the clone is built and saved. -/
def WorkoutViewSet.clone (st : Store) (u : RequestUser) (pk : WorkoutId)
    (freshP : ProfileId) (freshW : WorkoutId) : ApiResult Workout × Store :=
  if u.is_authenticated = false then (.unauthorized, st)
  else
    match findWorkout st pk with
    | none => (.notFound, st)
    | some w =>
      if w.is_public = false then
        match findProfile st u.id with
        | none => (.notFound, st)
        | some p =>
          if w.creator != p.id then (.forbidden, st)
          else cloneAndSave st u w freshP freshW
      else cloneAndSave st u w freshP freshW

/-- One validated entry of the exercises list a workout create/update
carries (WorkoutExerciseSerializer write side, serializers.py lines
68-87): exercise_id must resolve, order is required. -/
structure WorkoutEntryData where
  exercise_id : ExerciseId
  order : Nat
  sets : Nat
  reps : Option Nat
  duration : Option Nat
  rest_period : Int
  notes : Option String
deriving DecidableEq, Repr

/-- WorkoutExercise(exercise=..., **exercise_data) as built by
WorkoutSerializer.create/update. -/
def buildEntry (d : WorkoutEntryData) : WorkoutExercise :=
  { exercise := d.exercise_id
    order := d.order
    sets := d.sets
    reps := d.reps
    duration := d.duration
    rest_period := d.rest_period
    notes := d.notes }

/-- The validated_data a WorkoutSerializer update receives: a key is
present iff the Option is some.  creator is read_only and never appears. -/
structure WorkoutUpdateData where
  title : Option String
  description : Option String
  is_public : Option Bool
  exercises : Option (List WorkoutEntryData)
  estimated_duration : Option (Option Int)
  difficulty : Option Difficulty
  tags : Option (List String)
deriving DecidableEq, Repr

/-- WorkoutSerializer.update (serializers.py lines 161-180): pops the
exercises key, assigns every remaining validated key (skipping creator),
and, when an entry list was supplied, clears the entry list and rebuilds
it from the supplied data. -/
def WorkoutSerializer.update (w : Workout) (d : WorkoutUpdateData) : Workout :=
  let w1 : Workout :=
    { w with
      title := d.title.getD w.title
      description := d.description.getD w.description
      is_public := d.is_public.getD w.is_public
      estimated_duration := d.estimated_duration.getD w.estimated_duration
      difficulty := d.difficulty.getD w.difficulty
      tags := d.tags.getD w.tags }
  match d.exercises with
  | none => w1
  | some es => { w1 with exercises := es.map buildEntry }

/-- The validated_data a WorkoutSessionSerializer update receives: a key
is present iff the Option is some.  user and workout are read-only nested
serializers and never appear.  An inner Option distinguishes an explicit
null (allow_null fields) from the stored value being cleared. -/
structure SessionUpdateData where
  workout_id : Option WorkoutId
  status : Option SessionStatus
  scheduled_date : Option (Option Int)
  started_at : Option (Option Int)
  completed_at : Option (Option Int)
  notes : Option String
deriving DecidableEq, Repr

/-- A raw session update request body, including the junk keys user and
workout a client may send. -/
structure SessionRequestBody where
  user : Option ProfileId
  workout : Option WorkoutId
  workout_id : Option WorkoutId
  status : Option SessionStatus
  scheduled_date : Option (Option Int)
  started_at : Option (Option Int)
  completed_at : Option (Option Int)
  notes : Option String
deriving DecidableEq, Repr

/-- Validation of a session update body (serializers.py lines 221-248):
user and workout are not writable serializer fields, so they are dropped
without error; the writable keys pass through. -/
def WorkoutSessionSerializer.validated (b : SessionRequestBody) : SessionUpdateData :=
  { workout_id := b.workout_id
    status := b.status
    scheduled_date := b.scheduled_date
    started_at := b.started_at
    completed_at := b.completed_at
    notes := b.notes }

/-- WorkoutSessionSerializer.update (serializers.py lines 272-281): pops
workout_id, then assigns every remaining validated key, skipping the keys
user and workout. -/
def WorkoutSessionSerializer.update (s : WorkoutSession) (d : SessionUpdateData) :
    WorkoutSession :=
  { s with
    status := d.status.getD s.status
    scheduled_date := d.scheduled_date.getD s.scheduled_date
    started_at := d.started_at.getD s.started_at
    completed_at := d.completed_at.getD s.completed_at
    notes := (d.notes.map some).getD s.notes }

/-- session.save() after a transition: replace the document in the store. -/
def saveSession (st : Store) (s2 : WorkoutSession) : Store :=
  { st with sessions := st.sessions.map (fun s => if s.id == s2.id then s2 else s) }

/-- WorkoutSessionViewSet.start (views.py lines 635-659).  The viewset
carries permission_classes = [IsAuthenticated]: an unauthenticated call is
rejected by the permission layer before the handler runs (rendered 401
under the token authentication scheme, spec section 6).  The handler then
looks up the session (404), the caller's profile (DoesNotExist rendered
404), checks ownership (403) and applies start_session with no guard on
the prior status. -/
def WorkoutSessionViewSet.start (st : Store) (u : RequestUser) (pk : SessionId)
    (now : Int) : ApiResult WorkoutSession × Store :=
  if u.is_authenticated = false then (.unauthorized, st)
  else
    match findSession st pk with
    | none => (.notFound, st)
    | some s =>
      match findProfile st u.id with
      | none => (.notFound, st)
      | some p =>
        if s.user != p.id then (.forbidden, st)
        else
          let s2 := s.start_session now
          (.ok s2, saveSession st s2)

/-- WorkoutSessionViewSet.complete (views.py lines 661-685): same shape as
start, applying complete_session with no guard requiring a prior start. -/
def WorkoutSessionViewSet.complete (st : Store) (u : RequestUser) (pk : SessionId)
    (now : Int) : ApiResult WorkoutSession × Store :=
  if u.is_authenticated = false then (.unauthorized, st)
  else
    match findSession st pk with
    | none => (.notFound, st)
    | some s =>
      match findProfile st u.id with
      | none => (.notFound, st)
      | some p =>
        if s.user != p.id then (.forbidden, st)
        else
          let s2 := s.complete_session now
          (.ok s2, saveSession st s2)

/-- The validated_data an ExerciseLogSerializer receives (serializers.py
lines 320-335): a key is present iff the outer Option is some; the inner
Option of the allow_null performance fields is an explicit null. -/
structure LogUpdateData where
  session_id : Option SessionId
  exercise_id : Option ExerciseId
  set_number : Option Int
  reps : Option (Option Int)
  weight : Option (Option Int)
  duration : Option (Option Int)
  distance : Option (Option Int)
  notes : Option String
  perceived_exertion : Option (Option Int)
deriving DecidableEq, Repr

/-- A present non-null value must be at or above the given bound. -/
def optAtLeast (o : Option (Option Int)) (lo : Int) : Bool :=
  match o with
  | some (some v) => decide (lo ≤ v)
  | _ => true

/-- serializer.is_valid() for a log create or full update (serializers.py
lines 320-351): session_id, exercise_id and set_number are required;
session_id and exercise_id must resolve (validate_session_id,
validate_exercise_id); the numeric bounds of the field declarations. -/
def logDataValid (st : Store) (d : LogUpdateData) : Bool :=
  (match d.session_id with
   | some sid => (findSession st sid).isSome
   | none => false)
  && (match d.exercise_id with
      | some eid => (findExercise st eid).isSome
      | none => false)
  && (match d.set_number with
      | some n => decide (1 ≤ n)
      | none => false)
  && optAtLeast d.reps 0
  && optAtLeast d.weight 0
  && optAtLeast d.duration 0
  && optAtLeast d.distance 0
  && (match d.perceived_exertion with
      | some (some v) => decide (1 ≤ v) && decide (v ≤ 10)
      | _ => true)

/-- ExerciseLogSerializer.create (serializers.py lines 353-366): pops
exercise_id and session_id and builds the log from them plus the remaining
keys.  The required keys are present in any data that passed is_valid;
none is returned only off that path. -/
def ExerciseLogSerializer.create (d : LogUpdateData) (freshId : LogId) (now : Int) :
    Option ExerciseLog :=
  match d.session_id, d.exercise_id, d.set_number with
  | some sid, some eid, some sn =>
    some
      { id := freshId
        session := sid
        exercise := eid
        set_number := sn
        reps := d.reps.getD none
        weight := d.weight.getD none
        duration := d.duration.getD none
        distance := d.distance.getD none
        notes := d.notes
        perceived_exertion := d.perceived_exertion.getD none
        created_at := now }
  | _, _, _ => none

/-- ExerciseLogSerializer.update (serializers.py lines 368-378): pops
exercise_id and session_id, then assigns every remaining validated key,
skipping the keys exercise and session. -/
def ExerciseLogSerializer.update (l : ExerciseLog) (d : LogUpdateData) : ExerciseLog :=
  { l with
    set_number := d.set_number.getD l.set_number
    reps := d.reps.getD l.reps
    weight := d.weight.getD l.weight
    duration := d.duration.getD l.duration
    distance := d.distance.getD l.distance
    notes := (d.notes.map some).getD l.notes
    perceived_exertion := d.perceived_exertion.getD l.perceived_exertion }

/-- log.save() after an update: replace the document in the store. -/
def saveLog (st : Store) (l2 : ExerciseLog) : Store :=
  { st with logs := st.logs.map (fun l => if l.id == l2.id then l2 else l) }

/-- ExerciseLogViewSet.retrieve (views.py lines 741-765).  The viewset
carries permission_classes = [IsAuthenticated] (401 for anonymous callers
under the token scheme).  Ownership is transitive: the handler compares
log.session.user against the caller's profile.  A dangling session
reference would raise outside the handler's except-clauses (500). -/
def ExerciseLogViewSet.retrieve (st : Store) (u : RequestUser) (pk : LogId) :
    ApiResult ExerciseLog :=
  if u.is_authenticated = false then .unauthorized
  else
    match findLog st pk with
    | none => .notFound
    | some l =>
      match findProfile st u.id with
      | none => .notFound
      | some p =>
        match findSession st l.session with
        | none => .serverError
        | some sess =>
          if sess.user != p.id then .forbidden
          else .ok l

/-- ExerciseLogViewSet.create (views.py lines 767-798): validate first
(400); then resolve the submitted session_id and the caller's profile
(DoesNotExist rendered 404), reject foreign sessions (403), else save. -/
def ExerciseLogViewSet.create (st : Store) (u : RequestUser) (d : LogUpdateData)
    (freshId : LogId) (now : Int) : ApiResult ExerciseLog × Store :=
  if u.is_authenticated = false then (.unauthorized, st)
  else if logDataValid st d = false then (.badRequest, st)
  else
    match d.session_id with
    | none => (.badRequest, st)
    | some sid =>
      match findSession st sid with
      | none => (.notFound, st)
      | some sess =>
        match findProfile st u.id with
        | none => (.notFound, st)
        | some p =>
          if sess.user != p.id then (.forbidden, st)
          else
            match ExerciseLogSerializer.create d freshId now with
            | none => (.badRequest, st)
            | some l => (.created l, { st with logs := st.logs ++ [l] })

/-- ExerciseLogViewSet.update (views.py lines 800-826): log lookup (404),
profile lookup (404), transitive ownership check (403) before the
serializer runs; then is_valid decides 400 against save-and-200. -/
def ExerciseLogViewSet.update (st : Store) (u : RequestUser) (pk : LogId)
    (d : LogUpdateData) : ApiResult ExerciseLog × Store :=
  if u.is_authenticated = false then (.unauthorized, st)
  else
    match findLog st pk with
    | none => (.notFound, st)
    | some l =>
      match findProfile st u.id with
      | none => (.notFound, st)
      | some p =>
        match findSession st l.session with
        | none => (.serverError, st)
        | some sess =>
          if sess.user != p.id then (.forbidden, st)
          else if logDataValid st d then
            let l2 := ExerciseLogSerializer.update l d
            (.ok l2, saveLog st l2)
          else (.badRequest, st)

/-- ExerciseLogViewSet.destroy (views.py lines 861-884): same ownership
shape; on success the document is deleted (204). -/
def ExerciseLogViewSet.destroy (st : Store) (u : RequestUser) (pk : LogId) :
    ApiResult ExerciseLog × Store :=
  if u.is_authenticated = false then (.unauthorized, st)
  else
    match findLog st pk with
    | none => (.notFound, st)
    | some l =>
      match findProfile st u.id with
      | none => (.notFound, st)
      | some p =>
        match findSession st l.session with
        | none => (.serverError, st)
        | some sess =>
          if sess.user != p.id then (.forbidden, st)
          else (.noContent, { st with logs := st.logs.filter (fun x => x.id != pk) })

/-- An exercise create/update request body (ExerciseSerializer fields,
serializers.py lines 30-45): name, description, category and difficulty
are required, the rest optional. -/
structure ExerciseBody where
  name : Option String
  description : Option String
  category : Option Category
  difficulty : Option Difficulty
  muscle_groups : Option (List String)
  equipment_required : Option (List String)
  video_url : Option String
  image_url : Option String
  instructions : Option (List String)
deriving DecidableEq, Repr

/-- ExerciseSerializer on a create or full update builds the document when
the required fields are present (is_valid), filling list fields with their
declared default []. -/
def ExerciseSerializer.create (b : ExerciseBody) (freshId : ExerciseId) (now : Int) :
    Option Exercise :=
  match b.name, b.description, b.category, b.difficulty with
  | some n, some ds, some c, some df =>
    some
      { id := freshId
        name := n
        description := ds
        category := c
        muscle_groups := b.muscle_groups.getD []
        equipment_required := b.equipment_required.getD []
        difficulty := df
        video_url := b.video_url
        image_url := b.image_url
        instructions := b.instructions.getD []
        created_at := now }
  | _, _, _, _ => none

/-- A full (non-partial) exercise update: required fields must be present,
list fields take their default when absent, the optional url fields are
assigned only when supplied. -/
def ExerciseSerializer.applyFull (e : Exercise) (b : ExerciseBody) : Option Exercise :=
  match b.name, b.description, b.category, b.difficulty with
  | some n, some ds, some c, some df =>
    some
      { e with
        name := n
        description := ds
        category := c
        difficulty := df
        muscle_groups := b.muscle_groups.getD []
        equipment_required := b.equipment_required.getD []
        video_url := (b.video_url.map some).getD e.video_url
        image_url := (b.image_url.map some).getD e.image_url
        instructions := b.instructions.getD [] }
  | _, _, _, _ => none

/-- A partial exercise update: every supplied field is assigned, absent
fields keep their stored value. -/
def ExerciseSerializer.applyPatch (e : Exercise) (b : ExerciseBody) : Exercise :=
  { e with
    name := b.name.getD e.name
    description := b.description.getD e.description
    category := b.category.getD e.category
    difficulty := b.difficulty.getD e.difficulty
    muscle_groups := b.muscle_groups.getD e.muscle_groups
    equipment_required := b.equipment_required.getD e.equipment_required
    video_url := (b.video_url.map some).getD e.video_url
    image_url := (b.image_url.map some).getD e.image_url
    instructions := b.instructions.getD e.instructions }

/-- exercise.save() on update: replace the document in the store. -/
def saveExercise (st : Store) (e2 : Exercise) : Store :=
  { st with exercises := st.exercises.map (fun e => if e.id == e2.id then e2 else e) }

/-- ExerciseViewSet.create (views.py lines 90-105).  The viewset carries
permission_classes = [IsAuthenticatedOrReadOnly]: an unsafe request from
an unauthenticated caller is rejected by the permission layer before the
handler runs.  Modelled from the spec: the repository's settings module is
not under src/; per spec sections 6 and 7 the API authenticates with an
Authorization Token header, under which DRF renders that rejection as 401
Unauthorized.  The handler itself then rejects non-administrators (403)
and validates the body (400). -/
def ExerciseViewSet.create (st : Store) (u : RequestUser) (b : ExerciseBody)
    (freshId : ExerciseId) (now : Int) : ApiResult Exercise × Store :=
  if u.is_authenticated = false then (.unauthorized, st)
  else if u.is_staff = false then (.forbidden, st)
  else
    match ExerciseSerializer.create b freshId now with
    | none => (.badRequest, st)
    | some e => (.created e, { st with exercises := st.exercises ++ [e] })

/-- ExerciseViewSet.update (views.py lines 107-126): permission layer as
in create, then the admin check (403), lookup (404), full update. -/
def ExerciseViewSet.update (st : Store) (u : RequestUser) (pk : ExerciseId)
    (b : ExerciseBody) : ApiResult Exercise × Store :=
  if u.is_authenticated = false then (.unauthorized, st)
  else if u.is_staff = false then (.forbidden, st)
  else
    match findExercise st pk with
    | none => (.notFound, st)
    | some e =>
      match ExerciseSerializer.applyFull e b with
      | none => (.badRequest, st)
      | some e2 => (.ok e2, saveExercise st e2)

/-- ExerciseViewSet.partial_update (views.py lines 128-147, named here
without the underscore split): permission layer, admin check, lookup,
partial update. -/
def ExerciseViewSet.patchUpdate (st : Store) (u : RequestUser) (pk : ExerciseId)
    (b : ExerciseBody) : ApiResult Exercise × Store :=
  if u.is_authenticated = false then (.unauthorized, st)
  else if u.is_staff = false then (.forbidden, st)
  else
    match findExercise st pk with
    | none => (.notFound, st)
    | some e =>
      let e2 := ExerciseSerializer.applyPatch e b
      (.ok e2, saveExercise st e2)

/-- ExerciseViewSet.destroy (views.py lines 149-165): permission layer,
admin check (403), lookup (404), delete (204 with empty body). -/
def ExerciseViewSet.destroy (st : Store) (u : RequestUser) (pk : ExerciseId) :
    ApiResult Exercise × Store :=
  if u.is_authenticated = false then (.unauthorized, st)
  else if u.is_staff = false then (.forbidden, st)
  else
    match findExercise st pk with
    | none => (.notFound, st)
    | some _ => (.noContent, { st with exercises := st.exercises.filter (fun x => x.id != pk) })

/-- ExerciseViewSet.retrieve (views.py lines 78-88): a safe method, open
to every caller; 404 when the id does not resolve. -/
def ExerciseViewSet.retrieve (st : Store) (u : RequestUser) (pk : ExerciseId) :
    ApiResult Exercise :=
  match findExercise st pk with
  | some e => .ok e
  | none => .notFound

/-- Query parameters of the exercise list endpoint (views.py lines 29-58). -/
structure ExerciseQuery where
  category : Option Category
  difficulty : Option Difficulty
  muscle_group : Option String
  search : Option String
  page : Nat
  page_size : Nat
deriving DecidableEq, Repr

/-- The pattern starts the haystack. -/
def charsStartWith : List Char → List Char → Bool
  | [], _ => true
  | _ :: _, [] => false
  | a :: pat, b :: hay => a == b && charsStartWith pat hay

/-- The pattern occurs somewhere in the haystack. -/
def charsHaveSub (pat : List Char) : List Char → Bool
  | [] => pat.isEmpty
  | b :: hay => charsStartWith pat (b :: hay) || charsHaveSub pat hay

/-- name__icontains: case-insensitive substring match. -/
def icontains (hay pat : String) : Bool :=
  charsHaveSub pat.toLower.toList hay.toLower.toList

/-- ExerciseViewSet.get_queryset (views.py lines 29-58): the optional
category, difficulty, muscle-group membership and name-substring filters.
The order_by projection is omitted: it permutes the collection and no
claim depends on the order of a page. -/
def ExerciseViewSet.get_queryset (st : Store) (q : ExerciseQuery) : List Exercise :=
  let l1 := match q.category with
    | some c => st.exercises.filter (fun e => e.category == c)
    | none => st.exercises
  let l2 := match q.difficulty with
    | some d => l1.filter (fun e => e.difficulty == d)
    | none => l1
  let l3 := match q.muscle_group with
    | some m => l2.filter (fun e => e.muscle_groups.contains m)
    | none => l2
  match q.search with
  | some s => l3.filter (fun e => icontains e.name s)
  | none => l3

/-- ExerciseViewSet.list (views.py lines 60-76): a safe method open to
every caller; responds with the queryset count and one page of results. -/
def ExerciseViewSet.list (st : Store) (u : RequestUser) (q : ExerciseQuery) :
    ApiResult (Nat × List Exercise) :=
  let qs := ExerciseViewSet.get_queryset st q
  .ok (qs.length, (qs.drop ((q.page - 1) * q.page_size)).take q.page_size)

/-- The estimated-duration formula as the spec words it (spec section 4.2,
named for side-by-side comparison with the code's
Workout.calculate_estimated_duration): per-set time is the entry's
duration if set, else a fixed 30-second default; plus rest_period times
(sets - 1) per entry; plus a 300-second constant; floor-divided into
minutes; 0 on an empty entry list. -/
def specEstimatedDuration (w : Workout) : Int :=
  if w.exercises = [] then 0
  else
    (w.exercises.foldl
      (fun acc e =>
        acc + (match e.duration with | some d => (d : Int) | none => 30) * e.sets
            + e.rest_period * ((e.sets : Int) - 1)) 0
      + 300).fdiv 60

/-! Concrete fixtures used by counterexamples and witnesses. -/

def profAlice : UserProfile :=
  { id := 1, user_id := 1, username := "alice", email := "alice" }

def profBob : UserProfile :=
  { id := 2, user_id := 2, username := "bob", email := "bob" }

def exSquat : Exercise :=
  { id := 1, name := "Squat", description := "barbell squat", category := .strength,
    muscle_groups := ["legs"], equipment_required := ["barbell"],
    difficulty := .beginner, video_url := none, image_url := none,
    instructions := [], created_at := 0 }

def exPress : Exercise :=
  { exSquat with id := 2, name := "Press", description := "overhead press" }

def entryA : WorkoutExercise :=
  { exercise := 1, order := 1, sets := 3, reps := some 5, duration := none,
    rest_period := 60, notes := none }

def wPrivate : Workout :=
  { id := 10, title := "Leg Day", description := "legs", creator := 1,
    is_public := false, exercises := [entryA], estimated_duration := some 30,
    difficulty := .beginner, tags := ["legs"] }

def wPublic : Workout :=
  { wPrivate with id := 11, title := "Shared", is_public := true }

def sessAlice : WorkoutSession :=
  { id := 20, user := 1, workout := 10, status := .planned,
    scheduled_date := none, started_at := none, completed_at := none, notes := none }

def logAlice : ExerciseLog :=
  { id := 30, session := 20, exercise := 1, set_number := 1, reps := some 5,
    weight := some 100, duration := none, distance := none, notes := none,
    perceived_exertion := some 7, created_at := 0 }

def stFix : Store :=
  { profiles := [profAlice, profBob], exercises := [exSquat, exPress],
    workouts := [wPrivate, wPublic], sessions := [sessAlice], logs := [logAlice] }

def userAlice : RequestUser :=
  { is_authenticated := true, id := 1, is_staff := false,
    username := "alice", email := "alice" }

def userBob : RequestUser :=
  { userAlice with id := 2, username := "bob", email := "bob" }

def userCarol : RequestUser :=
  { userAlice with id := 3, username := "carol", email := "carol" }

def userAdmin : RequestUser :=
  { userAlice with id := 4, is_staff := true, username := "root", email := "root" }

def userAnon : RequestUser :=
  { is_authenticated := false, id := 0, is_staff := false, username := "", email := "" }

/-- C5: get_duration returns (completed_at - started_at) in minutes when
both timestamps are set and none when either is unset; after start at T0
followed by complete at T1 it equals (T1 - T0) in minutes. -/
theorem get_duration_spec (s : WorkoutSession) :
    (∀ t0 t1, s.started_at = some t0 → s.completed_at = some t1 →
      s.get_duration = some ((t1 - t0).fdiv 60)) ∧
    (s.started_at = none → s.get_duration = none) ∧
    (s.completed_at = none → s.get_duration = none) ∧
    (∀ t0 t1, ((s.start_session t0).complete_session t1).get_duration
      = some ((t1 - t0).fdiv 60)) := by
  refine ⟨?_, ?_, ?_, ?_⟩
  · intro t0 t1 h0 h1
    simp [WorkoutSession.get_duration, h0, h1]
  · intro h0
    simp [WorkoutSession.get_duration, h0]
  · intro h1
    cases hs : s.started_at <;>
      simp [WorkoutSession.get_duration, hs, h1]
  · intro t0 t1
    simp [WorkoutSession.get_duration, WorkoutSession.start_session,
      WorkoutSession.complete_session]

/-- C5 witness: a session started at 90 seconds and completed at 750
seconds lasted 11 minutes, 660 seconds floor-divided by 60. -/
theorem get_duration_spec_witness :
    ((sessAlice.start_session 90).complete_session 750).get_duration = some 11 :=
  (get_duration_spec sessAlice).2.2.2 90 750

/-- C6: calculate_estimated_duration returns 0 on an empty entry list and
otherwise the spec's formula (30-second default per set when no duration,
rest_period times sets minus one, plus 300 seconds, floor-divided by 60);
the fixture entry with sets 3, no duration and rest 60 gives 8 minutes.
The agreement needs each present duration to be nonzero, which the field
declarations (min_value 1 in both model and serializer) enforce: the code
tests Python truthiness where the spec says `if set`. -/
theorem estimated_duration_spec (w : Workout)
    (hWF : ∀ e ∈ w.exercises, e.duration ≠ some 0) :
    Workout.calculate_estimated_duration w = specEstimatedDuration w ∧
    (w.exercises = [] → Workout.calculate_estimated_duration w = 0) ∧
    Workout.calculate_estimated_duration wPrivate = 8 := by
  refine ⟨?_, ?_, by decide⟩
  · unfold Workout.calculate_estimated_duration specEstimatedDuration
    by_cases he : w.exercises = []
    · simp [he]
    · simp only [he, if_false]
      congr 1
      congr 1
      apply List.foldl_ext
      intro acc e hmem
      have hd := hWF e hmem
      cases hde : e.duration with
      | none => simp [entrySeconds, optTruthy, hde]; ring
      | some d =>
        have hdz : d ≠ 0 := by
          intro h0
          exact hd (by simp [hde, h0])
        simp [entrySeconds, optTruthy, hde, hdz]
        ring
  · intro he
    simp [Workout.calculate_estimated_duration, he]

/-- C6 witness: the fixture private workout satisfies the nonzero-duration
side condition and evaluates per the spec formula to 8 minutes. -/
theorem estimated_duration_spec_witness :
    Workout.calculate_estimated_duration wPrivate = specEstimatedDuration wPrivate ∧
    Workout.calculate_estimated_duration wPrivate = 8 :=
  ⟨(estimated_duration_spec wPrivate (by decide)).1,
   (estimated_duration_spec wPrivate (by decide)).2.2⟩

def entryDataB : WorkoutEntryData :=
  { exercise_id := 2, order := 1, sets := 3, reps := some 8, duration := none,
    rest_period := 60, notes := none }

def updOnlyEntryB : WorkoutUpdateData :=
  { title := none, description := none, is_public := none,
    exercises := some [entryDataB], estimated_duration := none,
    difficulty := none, tags := none }

/-- C7: a workout update that supplies an entries list fully replaces the
stored entries with entries built from the supplied data (delete-all-then-
recreate); with no entries key the stored entries are untouched; updating
the fixture workout holding the entry for exercise 1 with a one-element
list for exercise 2 leaves exactly one entry, referencing exercise 2. -/
theorem workout_update_replaces_entries (w : Workout) (d : WorkoutUpdateData) :
    (∀ es, d.exercises = some es →
      (WorkoutSerializer.update w d).exercises = es.map buildEntry) ∧
    (d.exercises = none → (WorkoutSerializer.update w d).exercises = w.exercises) ∧
    (WorkoutSerializer.update w d).creator = w.creator ∧
    (WorkoutSerializer.update wPrivate updOnlyEntryB).exercises = [buildEntry entryDataB] ∧
    (WorkoutSerializer.update wPrivate updOnlyEntryB).exercises.map
      (fun e => e.exercise) = [2] := by
  refine ⟨?_, ?_, ?_, by decide, by decide⟩
  · intro es hes
    simp [WorkoutSerializer.update, hes]
  · intro hes
    simp [WorkoutSerializer.update, hes]
  · cases hes : d.exercises <;> simp [WorkoutSerializer.update, hes]

/-- C7 witness: replacing the fixture workout's entry list with the
one-element list for exercise 2 yields exactly that rebuilt list. -/
theorem workout_update_replaces_entries_witness :
    (WorkoutSerializer.update wPrivate updOnlyEntryB).exercises
      = [entryDataB].map buildEntry :=
  (workout_update_replaces_entries wPrivate updOnlyEntryB).1 [entryDataB] rfl

/-- C8: a session update never changes the user or workout association,
even when the request body carries user, workout or workout_id values -
they are dropped silently - while every supplied writable field is
applied. -/
theorem session_update_preserves_associations
    (s : WorkoutSession) (b : SessionRequestBody) :
    (WorkoutSessionSerializer.update s (WorkoutSessionSerializer.validated b)).user
      = s.user ∧
    (WorkoutSessionSerializer.update s (WorkoutSessionSerializer.validated b)).workout
      = s.workout ∧
    (WorkoutSessionSerializer.update s (WorkoutSessionSerializer.validated b)).status
      = b.status.getD s.status ∧
    (WorkoutSessionSerializer.update s (WorkoutSessionSerializer.validated b)).scheduled_date
      = b.scheduled_date.getD s.scheduled_date ∧
    (WorkoutSessionSerializer.update s (WorkoutSessionSerializer.validated b)).started_at
      = b.started_at.getD s.started_at ∧
    (WorkoutSessionSerializer.update s (WorkoutSessionSerializer.validated b)).completed_at
      = b.completed_at.getD s.completed_at ∧
    (WorkoutSessionSerializer.update s (WorkoutSessionSerializer.validated b)).notes
      = (b.notes.map some).getD s.notes ∧
    (∀ x y z, WorkoutSessionSerializer.update s
        (WorkoutSessionSerializer.validated { b with user := x, workout := y, workout_id := z })
      = WorkoutSessionSerializer.update s (WorkoutSessionSerializer.validated b)) := by
  refine ⟨rfl, rfl, rfl, rfl, rfl, rfl, rfl, ?_⟩
  intro x y z
  rfl

/-- C10: an exercise log update never changes the session or exercise
references, even when session_id or exercise_id values are supplied - they
are dropped silently - while the performance fields are applied. -/
theorem exercise_log_update_preserves_refs (l : ExerciseLog) (d : LogUpdateData) :
    (ExerciseLogSerializer.update l d).session = l.session ∧
    (ExerciseLogSerializer.update l d).exercise = l.exercise ∧
    (ExerciseLogSerializer.update l d).set_number = d.set_number.getD l.set_number ∧
    (ExerciseLogSerializer.update l d).reps = d.reps.getD l.reps ∧
    (ExerciseLogSerializer.update l d).weight = d.weight.getD l.weight ∧
    (ExerciseLogSerializer.update l d).duration = d.duration.getD l.duration ∧
    (ExerciseLogSerializer.update l d).distance = d.distance.getD l.distance ∧
    (ExerciseLogSerializer.update l d).notes = (d.notes.map some).getD l.notes ∧
    (ExerciseLogSerializer.update l d).perceived_exertion
      = d.perceived_exertion.getD l.perceived_exertion ∧
    (∀ x y, ExerciseLogSerializer.update l { d with session_id := x, exercise_id := y }
      = ExerciseLogSerializer.update l d) := by
  refine ⟨rfl, rfl, rfl, rfl, rfl, rfl, rfl, rfl, rfl, ?_⟩
  intro x y
  rfl

/-- C1 counterexample: workout 10 is private and user carol (authenticated,
but holding no UserProfile - reachable, since registration tolerates a
profile-store failure) is not its creator, yet retrieve answers NotFound
('User profile not found'), not the Forbidden the claim demands. -/
theorem workout_retrieve_no_profile_counterexample :
    WorkoutViewSet.retrieve stFix userCarol 10 = ApiResult.notFound ∧
    WorkoutViewSet.retrieve stFix userCarol 10 ≠ ApiResult.forbidden ∧
    userCarol.is_authenticated = true ∧
    wPrivate.is_public = false ∧
    findWorkout stFix 10 = some wPrivate ∧
    findProfile stFix userCarol.id = none := by
  decide

/-- C1 (amended): retrieving a private workout yields Unauthorized for an
unauthenticated caller, Forbidden for an authenticated caller whose
profile exists and is not the creator, and NotFound for an authenticated
caller with no profile; a public workout, or the creator, gets the full
detail with resolved entries. -/
theorem workout_retrieve_access (st : Store) (u : RequestUser) (pk : WorkoutId)
    (w : Workout) (hw : findWorkout st pk = some w) :
    (w.is_public = false → u.is_authenticated = false →
      WorkoutViewSet.retrieve st u pk = .unauthorized) ∧
    (∀ p, w.is_public = false → u.is_authenticated = true →
      findProfile st u.id = some p → w.creator ≠ p.id →
      WorkoutViewSet.retrieve st u pk = .forbidden) ∧
    (w.is_public = false → u.is_authenticated = true →
      findProfile st u.id = none →
      WorkoutViewSet.retrieve st u pk = .notFound) ∧
    (w.is_public = true →
      WorkoutViewSet.retrieve st u pk = .ok (workoutDetail st w)) ∧
    (∀ p, u.is_authenticated = true → findProfile st u.id = some p →
      w.creator = p.id →
      WorkoutViewSet.retrieve st u pk = .ok (workoutDetail st w)) := by
  refine ⟨?_, ?_, ?_, ?_, ?_⟩
  · intro hpub hanon
    simp [WorkoutViewSet.retrieve, hw, hpub, hanon]
  · intro p hpub hauth hp hne
    simp [WorkoutViewSet.retrieve, hw, hpub, hauth, hp, bne_iff_ne, hne]
  · intro hpub hauth hp
    simp [WorkoutViewSet.retrieve, hw, hpub, hauth, hp]
  · intro hpub
    simp [WorkoutViewSet.retrieve, hw, hpub]
  · intro p hauth hp hcr
    by_cases hpub : w.is_public = true
    · simp [WorkoutViewSet.retrieve, hw, hpub]
    · simp only [Bool.not_eq_true] at hpub
      simp [WorkoutViewSet.retrieve, hw, hpub, hauth, hp, bne_iff_ne, hcr]

/-- C1 witness: on the fixture store, the anonymous caller gets 401, bob
(a different profile) gets 403, and the creator alice gets the detail. -/
theorem workout_retrieve_access_witness :
    WorkoutViewSet.retrieve stFix userAnon 10 = ApiResult.unauthorized ∧
    WorkoutViewSet.retrieve stFix userBob 10 = ApiResult.forbidden ∧
    WorkoutViewSet.retrieve stFix userAlice 10
      = ApiResult.ok (workoutDetail stFix wPrivate) := by
  refine ⟨?_, ?_, ?_⟩
  · exact (workout_retrieve_access stFix userAnon 10 wPrivate (by decide)).1 rfl rfl
  · exact (workout_retrieve_access stFix userBob 10 wPrivate (by decide)).2.1
      profBob rfl rfl (by decide) (by decide)
  · exact (workout_retrieve_access stFix userAlice 10 wPrivate (by decide)).2.2.2.2
      profAlice rfl (by decide) (by decide)

/-- C2: for an authenticated caller whose profile exists, each log
operation decides Forbidden exactly by comparing the profile of the log's
session (one level of indirection) against the caller's profile; for
create, against the session named by the submitted session_id. -/
theorem exercise_log_transitive_ownership
    (st : Store) (u : RequestUser) (p : UserProfile)
    (hu : u.is_authenticated = true) (hp : findProfile st u.id = some p) :
    (∀ pk l sess, findLog st pk = some l → findSession st l.session = some sess →
      (ExerciseLogViewSet.retrieve st u pk = .forbidden ↔ sess.user ≠ p.id)) ∧
    (∀ pk l sess d, findLog st pk = some l → findSession st l.session = some sess →
      ((ExerciseLogViewSet.update st u pk d).1 = .forbidden ↔ sess.user ≠ p.id)) ∧
    (∀ pk l sess, findLog st pk = some l → findSession st l.session = some sess →
      ((ExerciseLogViewSet.destroy st u pk).1 = .forbidden ↔ sess.user ≠ p.id)) ∧
    (∀ d sid sess freshId now, d.session_id = some sid →
      findSession st sid = some sess → logDataValid st d = true →
      ((ExerciseLogViewSet.create st u d freshId now).1 = .forbidden ↔
        sess.user ≠ p.id)) := by
  refine ⟨?_, ?_, ?_, ?_⟩
  · intro pk l sess hl hsess
    by_cases hown : sess.user = p.id <;>
      simp [ExerciseLogViewSet.retrieve, hu, hl, hp, hsess, bne_iff_ne, hown]
  · intro pk l sess d hl hsess
    by_cases hown : sess.user = p.id
    · cases hld : logDataValid st d <;>
        simp [ExerciseLogViewSet.update, hu, hl, hp, hsess, bne_iff_ne, hown, hld]
    · simp [ExerciseLogViewSet.update, hu, hl, hp, hsess, bne_iff_ne, hown]
  · intro pk l sess hl hsess
    by_cases hown : sess.user = p.id <;>
      simp [ExerciseLogViewSet.destroy, hu, hl, hp, hsess, bne_iff_ne, hown]
  · intro d sid sess freshId now hd hsess hvalid
    by_cases hown : sess.user = p.id
    · cases hc : ExerciseLogSerializer.create d freshId now <;>
        simp [ExerciseLogViewSet.create, hu, hvalid, hd, hsess, hp, bne_iff_ne,
          hown, hc]
    · simp [ExerciseLogViewSet.create, hu, hvalid, hd, hsess, hp, bne_iff_ne, hown]

def logBodyOnSessAlice : LogUpdateData :=
  { session_id := some 20, exercise_id := some 1, set_number := some 2,
    reps := some (some 8), weight := none, duration := none, distance := none,
    notes := none, perceived_exertion := none }

/-- C2 witness: bob reading alice's log gets 403, and bob creating a log
against alice's session 20 gets 403. -/
theorem exercise_log_transitive_ownership_witness :
    ExerciseLogViewSet.retrieve stFix userBob 30 = ApiResult.forbidden ∧
    (ExerciseLogViewSet.create stFix userBob logBodyOnSessAlice 31 0).1
      = ApiResult.forbidden := by
  have h := exercise_log_transitive_ownership stFix userBob profBob rfl (by decide)
  refine ⟨?_, ?_⟩
  · exact (h.1 30 logAlice sessAlice (by decide) (by decide)).mpr (by decide)
  · exact (h.2.2.2 logBodyOnSessAlice 20 sessAlice 31 0 rfl (by decide)
      (by decide)).mpr (by decide)

/-- C3 counterexample: workout 10 is private and carol (authenticated, no
profile) is not its owner, yet clone answers NotFound ('User profile not
found'), not the Forbidden the claim demands. -/
theorem workout_clone_no_profile_counterexample :
    (WorkoutViewSet.clone stFix userCarol 10 99 100).1 = ApiResult.notFound ∧
    (WorkoutViewSet.clone stFix userCarol 10 99 100).1 ≠ ApiResult.forbidden ∧
    userCarol.is_authenticated = true ∧
    wPrivate.is_public = false ∧
    findWorkout stFix 10 = some wPrivate ∧
    findProfile stFix userCarol.id = none := by
  decide

/-- C3 (amended): clone answers NotFound for a missing source, Forbidden
for a private source not owned by the caller's existing profile, NotFound
for a private source when the authenticated caller has no profile, and
otherwise creates a workout owned by the caller's (possibly freshly
created) profile, titled with the ' (Copy)' suffix, always private,
copying description, difficulty, tags, estimated_duration and the entry
list with each exercise reference reused by id. -/
theorem workout_clone_spec (st : Store) (u : RequestUser) (pk : WorkoutId)
    (freshP : ProfileId) (freshW : WorkoutId) (hu : u.is_authenticated = true) :
    (findWorkout st pk = none →
      (WorkoutViewSet.clone st u pk freshP freshW).1 = .notFound) ∧
    (∀ w p, findWorkout st pk = some w → w.is_public = false →
      findProfile st u.id = some p → w.creator ≠ p.id →
      (WorkoutViewSet.clone st u pk freshP freshW).1 = .forbidden) ∧
    (∀ w, findWorkout st pk = some w → w.is_public = false →
      findProfile st u.id = none →
      (WorkoutViewSet.clone st u pk freshP freshW).1 = .notFound) ∧
    (∀ w, findWorkout st pk = some w → w.is_public = true →
      (WorkoutViewSet.clone st u pk freshP freshW).1 = .created
        { id := freshW
          title := w.title ++ " (Copy)"
          description := w.description
          creator := (get_or_create_profile st u freshP).1.id
          is_public := false
          exercises := w.exercises
          estimated_duration := w.estimated_duration
          difficulty := w.difficulty
          tags := w.tags }) ∧
    (∀ w p, findWorkout st pk = some w → w.is_public = false →
      findProfile st u.id = some p → w.creator = p.id →
      (WorkoutViewSet.clone st u pk freshP freshW).1 = .created
        { id := freshW
          title := w.title ++ " (Copy)"
          description := w.description
          creator := p.id
          is_public := false
          exercises := w.exercises
          estimated_duration := w.estimated_duration
          difficulty := w.difficulty
          tags := w.tags }) ∧
    (get_or_create_profile st u freshP).1.user_id = u.id := by
  refine ⟨?_, ?_, ?_, ?_, ?_, ?_⟩
  · intro hw
    simp [WorkoutViewSet.clone, hu, hw]
  · intro w p hw hpub hp hne
    simp [WorkoutViewSet.clone, hu, hw, hpub, hp, bne_iff_ne, hne]
  · intro w hw hpub hp
    simp [WorkoutViewSet.clone, hu, hw, hpub, hp]
  · intro w hw hpub
    simp [WorkoutViewSet.clone, hu, hw, hpub, cloneAndSave]
  · intro w p hw hpub hp hcr
    simp [WorkoutViewSet.clone, hu, hw, hpub, hp, bne_iff_ne, hcr, cloneAndSave,
      get_or_create_profile]
  · unfold get_or_create_profile
    cases hfp : findProfile st u.id with
    | none => simp
    | some p =>
      have := List.find?_some hfp
      simp only [beq_iff_eq] at this
      simp [this]

/-- C3 witness: bob clones the public workout 11 into a private copy he
owns with the ' (Copy)' title, and is refused on the private workout 10. -/
theorem workout_clone_spec_witness :
    (WorkoutViewSet.clone stFix userBob 11 99 100).1 = ApiResult.created
      { id := 100, title := "Shared (Copy)", description := "legs", creator := 2,
        is_public := false, exercises := [entryA], estimated_duration := some 30,
        difficulty := .beginner, tags := ["legs"] } ∧
    (WorkoutViewSet.clone stFix userBob 10 99 100).1 = ApiResult.forbidden := by
  refine ⟨?_, ?_⟩
  · exact ((workout_clone_spec stFix userBob 11 99 100 rfl).2.2.2.1 wPublic
      (by decide) (by decide)).trans (by decide)
  · exact (workout_clone_spec stFix userBob 10 99 100 rfl).2.1 wPrivate profBob
      (by decide) (by decide) (by decide) (by decide)

/-- C4: for the owner, start and complete apply with no guard on the prior
status: start sets status in_progress and started_at now, complete sets
status completed and completed_at now while leaving started_at alone, so
completing a never-started session succeeds with started_at and duration
still null. -/
theorem session_start_complete_unguarded
    (st : Store) (u : RequestUser) (pk : SessionId) (now : Int)
    (s : WorkoutSession) (p : UserProfile)
    (hu : u.is_authenticated = true) (hs : findSession st pk = some s)
    (hp : findProfile st u.id = some p) (hown : s.user = p.id) :
    (WorkoutSessionViewSet.start st u pk now).1 = .ok (s.start_session now) ∧
    (s.start_session now).status = .in_progress ∧
    (s.start_session now).started_at = some now ∧
    (WorkoutSessionViewSet.complete st u pk now).1 = .ok (s.complete_session now) ∧
    (s.complete_session now).status = .completed ∧
    (s.complete_session now).completed_at = some now ∧
    (s.complete_session now).started_at = s.started_at ∧
    (s.started_at = none → (s.complete_session now).get_duration = none) := by
  refine ⟨?_, rfl, rfl, ?_, rfl, rfl, rfl, ?_⟩
  · simp [WorkoutSessionViewSet.start, hu, hs, hp, hown]
  · simp [WorkoutSessionViewSet.complete, hu, hs, hp, hown]
  · intro h0
    simp [WorkoutSession.get_duration, WorkoutSession.complete_session, h0]

/-- C4 witness: alice completes her planned, never-started session 20;
the call succeeds, started_at stays null and the duration is null. -/
theorem session_start_complete_unguarded_witness :
    (WorkoutSessionViewSet.complete stFix userAlice 20 600).1
      = ApiResult.ok (sessAlice.complete_session 600) ∧
    (sessAlice.complete_session 600).started_at = none ∧
    (sessAlice.complete_session 600).get_duration = none := by
  have h := session_start_complete_unguarded stFix userAlice 20 600 sessAlice
    profAlice rfl (by decide) (by decide) (by decide)
  exact ⟨h.2.2.2.1, by decide, h.2.2.2.2.2.2.2 rfl⟩

def bodyDips : ExerciseBody :=
  { name := some "Dips", description := some "bar dips", category := some .strength,
    difficulty := some .beginner, muscle_groups := none, equipment_required := none,
    video_url := none, image_url := none, instructions := none }

/-- C9 counterexample: an anonymous create on the exercise catalog is
rejected by the permission layer as Unauthorized (401 under the token
authentication scheme), not the Forbidden the claim demands for every
non-administrator caller. -/
theorem exercise_anonymous_write_counterexample :
    (ExerciseViewSet.create stFix userAnon bodyDips 5 0).1 = ApiResult.unauthorized ∧
    (ExerciseViewSet.create stFix userAnon bodyDips 5 0).1 ≠ ApiResult.forbidden ∧
    userAnon.is_staff = false := by
  decide

/-- C9 (amended): anonymous callers get Unauthorized on the catalog write
operations, authenticated non-administrators get Forbidden, list and
retrieve are open to every caller, and an administrator's delete of an
existing exercise answers 204 after which the id no longer resolves. -/
theorem exercise_admin_gate (st : Store) (u : RequestUser) :
    (u.is_authenticated = false → ∀ b pk freshId now,
      (ExerciseViewSet.create st u b freshId now).1 = .unauthorized ∧
      (ExerciseViewSet.update st u pk b).1 = .unauthorized ∧
      (ExerciseViewSet.patchUpdate st u pk b).1 = .unauthorized ∧
      (ExerciseViewSet.destroy st u pk).1 = .unauthorized) ∧
    (u.is_authenticated = true → u.is_staff = false → ∀ b pk freshId now,
      (ExerciseViewSet.create st u b freshId now).1 = .forbidden ∧
      (ExerciseViewSet.update st u pk b).1 = .forbidden ∧
      (ExerciseViewSet.patchUpdate st u pk b).1 = .forbidden ∧
      (ExerciseViewSet.destroy st u pk).1 = .forbidden) ∧
    (∀ u2 pk q, ExerciseViewSet.retrieve st u pk = ExerciseViewSet.retrieve st u2 pk ∧
      ExerciseViewSet.list st u q = ExerciseViewSet.list st u2 q) ∧
    (∀ pk e, findExercise st pk = some e →
      ExerciseViewSet.retrieve st u pk = .ok e) ∧
    (u.is_authenticated = true → u.is_staff = true → ∀ pk e u2,
      findExercise st pk = some e →
      (ExerciseViewSet.destroy st u pk).1 = .noContent ∧
      ExerciseViewSet.retrieve (ExerciseViewSet.destroy st u pk).2 u2 pk
        = .notFound) := by
  refine ⟨?_, ?_, ?_, ?_, ?_⟩
  · intro hanon b pk freshId now
    refine ⟨?_, ?_, ?_, ?_⟩ <;>
      simp [ExerciseViewSet.create, ExerciseViewSet.update,
        ExerciseViewSet.patchUpdate, ExerciseViewSet.destroy, hanon]
  · intro hauth hstaff b pk freshId now
    refine ⟨?_, ?_, ?_, ?_⟩ <;>
      simp [ExerciseViewSet.create, ExerciseViewSet.update,
        ExerciseViewSet.patchUpdate, ExerciseViewSet.destroy, hauth, hstaff]
  · intro u2 pk q
    exact ⟨rfl, rfl⟩
  · intro pk e he
    simp [ExerciseViewSet.retrieve, he]
  · intro hauth hstaff pk e u2 he
    refine ⟨?_, ?_⟩
    · simp [ExerciseViewSet.destroy, hauth, hstaff, he]
    · simp only [ExerciseViewSet.destroy, hauth, hstaff, he, Bool.false_eq_true,
        if_false, if_true]
      simp only [ExerciseViewSet.retrieve, findExercise]
      rw [List.find?_eq_none.mpr]
      intro x hx
      have hpred := (List.mem_filter.mp hx).2
      simp only [bne_iff_ne, ne_eq, decide_eq_true_eq] at hpred
      simp [hpred]

/-- C9 witness: bob (authenticated, not staff) is refused creation; the
administrator deletes exercise 1 with 204 and a later retrieve of id 1
(by any caller) is 404. -/
theorem exercise_admin_gate_witness :
    (ExerciseViewSet.create stFix userBob bodyDips 5 0).1 = ApiResult.forbidden ∧
    (ExerciseViewSet.destroy stFix userAdmin 1).1 = ApiResult.noContent ∧
    ExerciseViewSet.retrieve (ExerciseViewSet.destroy stFix userAdmin 1).2 userBob 1
      = ApiResult.notFound := by
  refine ⟨?_, ?_, ?_⟩
  · exact ((exercise_admin_gate stFix userBob).2.1 rfl rfl bodyDips 1 5 0).1
  · exact ((exercise_admin_gate stFix userAdmin).2.2.2.2 rfl rfl 1 exSquat userBob
      (by decide)).1
  · exact ((exercise_admin_gate stFix userAdmin).2.2.2.2 rfl rfl 1 exSquat userBob
      (by decide)).2

end WorkoutApi
